import Mathlib

/-!
Shallow embedding of the `DataPipeline` class (src/pipeline.js) of the
web-crawler-for-ai-training repository: a C4-style corpus-cleaning pipeline
with language identification, heuristic quality filtering and cross-document
n-gram deduplication.

JS numbers are modelled as rationals (ℚ), JS `Set` as `Finset String`,
JS objects whose fields are filled in gradually as structures of `Option`
fields (`none` = the field is absent / was never assigned).  The external
language classifier (`francAll` from franc-min) is out of scope per the
spec and is passed in as an opaque function; a thrown exception is its
`err` constructor.
-/

namespace DataPipelineModel

/-- Characters matched by the JS regexp class `\s` (the ones relevant to
this corpus: ASCII whitespace). -/
def jsWhitespace (c : Char) : Bool :=
  c = ' ' || c = '\t' || c = '\n' || c = '\r' || c = '\x0b' || c = '\x0c'

/-- Split a character list at separators chosen by `p`, dropping empty
segments; `acc` holds the (reversed) characters of the current segment. -/
def splitDropEmptyAux (p : Char → Bool) : List Char → List Char → List String
  | [], acc => if acc = [] then [] else [String.mk acc.reverse]
  | c :: rest, acc =>
      if p c then
        (if acc = [] then [] else [String.mk acc.reverse]) ++ splitDropEmptyAux p rest []
      else
        splitDropEmptyAux p rest (c :: acc)

/-- Split a string at separators chosen by `p`, dropping empty segments
(the composite `s.split(p).filter(seg => seg.length > 0)`). -/
def splitDropEmpty (p : Char → Bool) (s : String) : List String :=
  splitDropEmptyAux p s.toList []

/-- `text.split(/\s+/).filter(word => word.length > 0)`:
whitespace-delimited non-empty tokens. -/
def splitWords (text : String) : List String :=
  splitDropEmpty jsWhitespace text

/-- `line.trim()` with the same whitespace class. -/
def jsTrim (s : String) : String :=
  String.mk (((s.toList.dropWhile jsWhitespace).reverse.dropWhile jsWhitespace).reverse)

/-- `text.toLowerCase()` (ASCII case mapping, the range exercised by this
corpus model). -/
def jsToLower (s : String) : String :=
  String.mk (s.toList.map Char.toLower)

/-- The pipeline configuration (`this.options`), all numeric thresholds as
rationals; `ngramSize` is the positive integer of the spec. -/
structure Options where
  targetLanguages : List String
  minLanguageConfidence : ℚ
  minTextLength : ℚ
  maxTextLength : ℚ
  minWordCount : ℚ
  minAvgWordLength : ℚ
  maxAvgWordLength : ℚ
  minLinesEndingWithPunctuation : ℚ
  maxBulletPointRatio : ℚ
  maxEllipsisLineRatio : ℚ
  maxSymbolToWordRatio : ℚ
  maxDigitRatio : ℚ
  maxUppercaseRatio : ℚ
  minUniqueWordsRatio : ℚ
  ngramSize : Nat
  ngramOverlapThreshold : ℚ
  deriving Repr, DecidableEq

/-- The default option values from the constructor. -/
def defaultOptions : Options where
  targetLanguages := ["eng"]
  minLanguageConfidence := mkRat 1 2
  minTextLength := 100
  maxTextLength := 100000
  minWordCount := 20
  minAvgWordLength := 3
  maxAvgWordLength := 15
  minLinesEndingWithPunctuation := mkRat 1 2
  maxBulletPointRatio := mkRat 1 2
  maxEllipsisLineRatio := mkRat 3 10
  maxSymbolToWordRatio := mkRat 1 10
  maxDigitRatio := mkRat 3 20
  maxUppercaseRatio := mkRat 1 5
  minUniqueWordsRatio := mkRat 3 10
  ngramSize := 13
  ngramOverlapThreshold := mkRat 4 5

/-- One `DataPipeline` instance: the immutable options plus the mutable
dedup state (`this.seenNGrams`, `this.processedDocuments`). -/
structure DataPipeline where
  options : Options
  seenNGrams : Finset String
  processedDocuments : Nat
  deriving DecidableEq

/-- `new DataPipeline(options)`: empty seen-set, zero counter. -/
def DataPipeline.mkNew (opts : Options) : DataPipeline :=
  { options := opts, seenNGrams := ∅, processedDocuments := 0 }

/-- An input document; `none` models an absent (undefined) field. -/
structure Document where
  title : Option String := none
  url : Option String := none
  filteredText : Option String := none
  text : Option String := none
  deriving Repr, DecidableEq

/-- JS string truthiness: an absent or empty string field is falsy. -/
def strTruthy (o : Option String) : Option String :=
  match o with
  | some s => if s = "" then none else some s
  | none => none

/-- `document.filteredText || document.text || ''` in `processDocument`. -/
def resolveText (doc : Document) : String :=
  ((strTruthy doc.filteredText).or (strTruthy doc.text)).getD ""

/-- Result of the opaque external classifier (`francAll`): either a ranked
list of (ISO 639-3 code, confidence) pairs, or a thrown exception whose
message is the payload. -/
inductive ClassifierResult where
  | ok : List (String × ℚ) → ClassifierResult
  | err : String → ClassifierResult
  deriving Repr, DecidableEq

/-- The classifier dependency as a function of the text. -/
def Classifier : Type := String → ClassifierResult

/-- Return value of `identifyLanguage`.  `allDetections` is absent in the
undetermined and error branches. -/
structure LanguageResult where
  passed : Bool
  detected : String
  confidence : ℚ
  allDetections : Option (List (String × ℚ)) := none
  reason : Option String := none
  deriving Repr, DecidableEq

/-- `identifyLanguage(text)`: delegate to the classifier, reject on no
candidates / undetermined, otherwise check target language and confidence;
a thrown classifier exception is caught and converted to a result.
(The numeric interpolation `confidence.toFixed(2)` inside the rejection
message is elided from the modelled string.) -/
def identifyLanguage (p : DataPipeline) (classifier : Classifier) (text : String) :
    LanguageResult :=
  match classifier text with
  | .err msg =>
      { passed := false
        detected := "error"
        confidence := 0
        reason := some ("Language detection error: " ++ msg) }
  | .ok languages =>
      match languages with
      | [] =>
          { passed := false
            detected := "undetermined"
            confidence := 0
            reason := some "Could not determine language" }
      | (detectedLang, confidence) :: _ =>
          if detectedLang = "und" then
            { passed := false
              detected := "undetermined"
              confidence := 0
              reason := some "Could not determine language" }
          else
            let passed := p.options.targetLanguages.contains detectedLang &&
                          decide (p.options.minLanguageConfidence ≤ confidence)
            { passed := passed
              detected := detectedLang
              confidence := confidence
              allDetections := some (languages.take 3)
              reason := if !passed then
                  some ("Language " ++ detectedLang ++
                        " not in target languages or low confidence")
                else none }

/-- The metrics snapshot computed by `calculateMetrics`. -/
structure Metrics where
  textLength : Nat
  wordCount : Nat
  uniqueWordCount : Nat
  lineCount : Nat
  avgWordLength : ℚ
  uniqueWordsRatio : ℚ
  digitRatio : ℚ
  uppercaseRatio : ℚ
  symbolToWordRatio : ℚ
  linesEndingWithPunctuationRatio : ℚ
  bulletPointRatio : ℚ
  ellipsisLineRatio : ℚ
  deriving Repr, DecidableEq

/-- `words.join(' ')`: join words with a single-space separator. -/
def joinSpace : List String → String
  | [] => ""
  | [w] => w
  | w :: rest => w ++ " " ++ joinSpace rest

/-- The fixed bullet glyphs of the regexp `^[\s]*[-•*▪▫◦◘◙○●]`. -/
def bulletChars : List Char := ['-', '•', '*', '▪', '▫', '◦', '◘', '◙', '○', '●']

/-- `/[.!?]$/.test(line.trim())`. -/
def endsWithPunctuation (line : String) : Bool :=
  match (jsTrim line).toList.getLast? with
  | some c => c = '.' || c = '!' || c = '?'
  | none => false

/-- `/^[\s]*[-•*▪▫◦◘◙○●]/.test(line)`. -/
def isBulletLine (line : String) : Bool :=
  match line.toList.dropWhile jsWhitespace with
  | c :: _ => bulletChars.contains c
  | [] => false

/-- Does the character list contain two consecutive dots? -/
def hasTwoConsecutiveDots : List Char → Bool
  | '.' :: '.' :: _ => true
  | _ :: rest => hasTwoConsecutiveDots rest
  | [] => false

/-- `/\.{2,}/.test(line)`: the line contains two consecutive dots. -/
def hasEllipsis (line : String) : Bool :=
  hasTwoConsecutiveDots line.toList

/-- `calculateMetrics(text)`: lexical and structural statistics; every
ratio with a zero denominator is 0. -/
def calculateMetrics (text : String) : Metrics :=
  let lines := (splitDropEmpty (fun c => c = '\n') text).filter (fun l => jsTrim l ≠ "")
  let words := splitWords text
  let uniqueWords := (words.map jsToLower).toFinset
  let chars := text.toList
  let totalChars := chars.length
  let alphaChars := (chars.filter Char.isAlpha).length
  let digitChars := (chars.filter Char.isDigit).length
  let uppercaseChars := (chars.filter Char.isUpper).length
  let whitespaceChars := (chars.filter (fun c => jsWhitespace c)).length
  let symbolChars := totalChars - alphaChars - digitChars - whitespaceChars
  let linesEndingWithPunctuation := (lines.filter endsWithPunctuation).length
  let bulletLines := (lines.filter isBulletLine).length
  let ellipsisLines := (lines.filter hasEllipsis).length
  let totalWordLength := (words.map String.length).sum
  { textLength := totalChars
    wordCount := words.length
    uniqueWordCount := uniqueWords.card
    lineCount := lines.length
    avgWordLength := if words.length ≠ 0 then mkRat totalWordLength words.length else 0
    uniqueWordsRatio := if words.length ≠ 0 then mkRat uniqueWords.card words.length else 0
    digitRatio := if totalChars ≠ 0 then mkRat digitChars totalChars else 0
    uppercaseRatio := if alphaChars ≠ 0 then mkRat uppercaseChars alphaChars else 0
    symbolToWordRatio := if words.length ≠ 0 then mkRat symbolChars words.length else 0
    linesEndingWithPunctuationRatio :=
      if lines.length ≠ 0 then mkRat linesEndingWithPunctuation lines.length else 0
    bulletPointRatio := if lines.length ≠ 0 then mkRat bulletLines lines.length else 0
    ellipsisLineRatio := if lines.length ≠ 0 then mkRat ellipsisLines lines.length else 0 }

/-- The complete map returned by `applyQualityFilters` (`true` = failed). -/
structure QualityFilters where
  tooShort : Bool
  tooLong : Bool
  tooFewWords : Bool
  wordsTooShort : Bool
  wordsTooLong : Bool
  insufficientPunctuation : Bool
  tooManyBullets : Bool
  tooManyEllipsis : Bool
  tooManySymbols : Bool
  tooManyDigits : Bool
  tooManyUppercase : Bool
  insufficientVariety : Bool
  deriving Repr, DecidableEq

/-- `applyQualityFilters(text, metrics)`: every threshold comparison is
evaluated (the `text` argument is unused in the source body as well). -/
def applyQualityFilters (p : DataPipeline) (_text : String) (metrics : Metrics) :
    QualityFilters where
  tooShort := decide ((metrics.textLength : ℚ) < p.options.minTextLength)
  tooLong := decide (p.options.maxTextLength < (metrics.textLength : ℚ))
  tooFewWords := decide ((metrics.wordCount : ℚ) < p.options.minWordCount)
  wordsTooShort := decide (metrics.avgWordLength < p.options.minAvgWordLength)
  wordsTooLong := decide (p.options.maxAvgWordLength < metrics.avgWordLength)
  insufficientPunctuation :=
    decide (metrics.linesEndingWithPunctuationRatio < p.options.minLinesEndingWithPunctuation)
  tooManyBullets := decide (p.options.maxBulletPointRatio < metrics.bulletPointRatio)
  tooManyEllipsis := decide (p.options.maxEllipsisLineRatio < metrics.ellipsisLineRatio)
  tooManySymbols := decide (p.options.maxSymbolToWordRatio < metrics.symbolToWordRatio)
  tooManyDigits := decide (p.options.maxDigitRatio < metrics.digitRatio)
  tooManyUppercase := decide (p.options.maxUppercaseRatio < metrics.uppercaseRatio)
  insufficientVariety := decide (metrics.uniqueWordsRatio < p.options.minUniqueWordsRatio)

/-- `Object.values(qualityFilters).some(v => v === true)`. -/
def anyQualityFailed (q : QualityFilters) : Bool :=
  q.tooShort || q.tooLong || q.tooFewWords || q.wordsTooShort || q.wordsTooLong ||
  q.insufficientPunctuation || q.tooManyBullets || q.tooManyEllipsis ||
  q.tooManySymbols || q.tooManyDigits || q.tooManyUppercase || q.insufficientVariety

/-- `generateNGrams(text, n)`: lowercase, split on whitespace, drop empty
tokens, emit every window of `ngramSize` consecutive words joined by a
single space.  `n = none` (JS `null`) and `n = some 0` fall back to
`options.ngramSize`, mirroring `n || this.options.ngramSize`; the guard
`words.length < ngramSize → []` mirrors the JS loop bound
`i <= words.length - ngramSize` going negative. -/
def generateNGrams (p : DataPipeline) (text : String) (n : Option Nat) : List String :=
  let ngramSize := match n with
    | some k => if k = 0 then p.options.ngramSize else k
    | none => p.options.ngramSize
  let words := splitWords (jsToLower text)
  if words.length < ngramSize then []
  else (List.range (words.length - ngramSize + 1)).map
    (fun i => joinSpace ((words.drop i).take ngramSize))

/-- Return value of `checkDuplicates`; `totalNGrams` and `duplicateNGrams`
are absent in the zero-window early return. -/
structure DedupResult where
  passed : Bool
  overlapRatio : ℚ
  totalNGrams : Option Nat := none
  duplicateNGrams : Option Nat := none
  reason : Option String := none
  deriving Repr, DecidableEq

/-- `checkDuplicates(text)`: count generated windows (with multiplicity)
already in the seen set, overlap ratio against the window count, strict
threshold comparison.  (The percentage interpolation inside the rejection
message is elided from the modelled string.) -/
def checkDuplicates (p : DataPipeline) (text : String) : DedupResult :=
  let ngrams := generateNGrams p text none
  if ngrams.length = 0 then
    { passed := true, overlapRatio := 0, reason := none }
  else
    let seenCount := (ngrams.filter (fun g => decide (g ∈ p.seenNGrams))).length
    let overlapRatio : ℚ := mkRat seenCount ngrams.length
    let passed := decide (overlapRatio < p.options.ngramOverlapThreshold)
    { passed := passed
      overlapRatio := overlapRatio
      totalNGrams := some ngrams.length
      duplicateNGrams := some seenCount
      reason := if !passed then some "High n-gram overlap ratio" else none }

/-- `addNGrams(text)`: insert every generated n-gram into the seen set. -/
def addNGrams (p : DataPipeline) (text : String) : DataPipeline :=
  { p with seenNGrams := (generateNGrams p text none).foldl (fun s g => insert g s) p.seenNGrams }

/-- `reset()`: clear the seen set and zero the counter. -/
def reset (p : DataPipeline) : DataPipeline :=
  { p with seenNGrams := ∅, processedDocuments := 0 }

/-- `getStats()` (memory estimate elided to its defining quantity). -/
def getStats (p : DataPipeline) : Nat × Nat :=
  (p.processedDocuments, p.seenNGrams.card)

/-- `result.pipeline.filters`: each flag is `none` until the corresponding
stage assigns it. -/
structure Filters where
  emptyText : Option Bool := none
  language : Option Bool := none
  tooShort : Option Bool := none
  tooLong : Option Bool := none
  tooFewWords : Option Bool := none
  wordsTooShort : Option Bool := none
  wordsTooLong : Option Bool := none
  insufficientPunctuation : Option Bool := none
  tooManyBullets : Option Bool := none
  tooManyEllipsis : Option Bool := none
  tooManySymbols : Option Bool := none
  tooManyDigits : Option Bool := none
  tooManyUppercase : Option Bool := none
  insufficientVariety : Option Bool := none
  duplicate : Option Bool := none
  deriving Repr, DecidableEq

/-- `{...filters, ...qualityFilters}`: merge the complete quality map into
the filters object. -/
def Filters.withQuality (f : Filters) (q : QualityFilters) : Filters :=
  { f with
    tooShort := some q.tooShort
    tooLong := some q.tooLong
    tooFewWords := some q.tooFewWords
    wordsTooShort := some q.wordsTooShort
    wordsTooLong := some q.wordsTooLong
    insufficientPunctuation := some q.insufficientPunctuation
    tooManyBullets := some q.tooManyBullets
    tooManyEllipsis := some q.tooManyEllipsis
    tooManySymbols := some q.tooManySymbols
    tooManyDigits := some q.tooManyDigits
    tooManyUppercase := some q.tooManyUppercase
    insufficientVariety := some q.insufficientVariety }

/-- `result.pipeline.metrics`: each part is `none` until its stage runs. -/
structure PipelineMetrics where
  language : Option LanguageResult := none
  textMetrics : Option Metrics := none
  ngramDuplication : Option DedupResult := none
  deriving Repr, DecidableEq

/-- `result.pipeline`. -/
structure PipelineMeta where
  passed : Bool
  filters : Filters
  metrics : PipelineMetrics
  deriving Repr, DecidableEq

/-- `result = {...document, pipeline: {...}}`. -/
structure PipelineResult where
  document : Document
  pipeline : PipelineMeta
  deriving Repr, DecidableEq

/-- The body of `processDocument(document)` after the text extraction:
empty-text check, language check, metrics, quality filters, dedup check,
then commit (add n-grams, bump counter).  Every stage reads only the
resolved text and the pipeline instance. -/
def processText (classifier : Classifier) (p : DataPipeline) (text : String) :
    PipelineMeta × DataPipeline :=
  if text = "" then
    ({ passed := false, filters := { emptyText := some true }, metrics := {} }, p)
  else
    let languageCheck := identifyLanguage p classifier text
    let metrics0 : PipelineMetrics := { language := some languageCheck }
    let filters0 : Filters := { language := some (!languageCheck.passed) }
    if !languageCheck.passed then
      ({ passed := false, filters := filters0, metrics := metrics0 }, p)
    else
      let metrics := calculateMetrics text
      let metrics1 := { metrics0 with textMetrics := some metrics }
      let qualityFilters := applyQualityFilters p text metrics
      let filters1 := filters0.withQuality qualityFilters
      if anyQualityFailed qualityFilters then
        ({ passed := false, filters := filters1, metrics := metrics1 }, p)
      else
        let duplicateCheck := checkDuplicates p text
        let metrics2 := { metrics1 with ngramDuplication := some duplicateCheck }
        let filters2 := { filters1 with duplicate := some (!duplicateCheck.passed) }
        if !duplicateCheck.passed then
          ({ passed := false, filters := filters2, metrics := metrics2 }, p)
        else
          ({ passed := true, filters := filters2, metrics := metrics2 },
           { addNGrams p text with processedDocuments := p.processedDocuments + 1 })

/-- `processDocument(document)`: extract `document.filteredText ||
document.text || ''`, run the staged checks on it, and return the document
(spread into the result) together with its `pipeline` verdict and the
updated pipeline instance. -/
def processDocument (classifier : Classifier) (p : DataPipeline) (doc : Document) :
    PipelineResult × DataPipeline :=
  let rm := processText classifier p (resolveText doc)
  ({ document := doc, pipeline := rm.1 }, rm.2)

/-! ### Concrete fixtures used by the witness theorems -/

/-- A permissive configuration under which short plain-text documents pass
every quality heuristic (used to exercise the accepting paths). -/
def lenientOptions : Options where
  targetLanguages := ["eng"]
  minLanguageConfidence := mkRat 1 2
  minTextLength := 0
  maxTextLength := 100000
  minWordCount := 0
  minAvgWordLength := 0
  maxAvgWordLength := 100
  minLinesEndingWithPunctuation := 0
  maxBulletPointRatio := 1
  maxEllipsisLineRatio := 1
  maxSymbolToWordRatio := 100
  maxDigitRatio := 1
  maxUppercaseRatio := 1
  minUniqueWordsRatio := 0
  ngramSize := 3
  ngramOverlapThreshold := mkRat 4 5

/-- A classifier stub that confidently reports English. -/
def engClassifier : Classifier := fun _ => .ok [("eng", 1)]

/-- A classifier stub that reports the undetermined sentinel, as franc does
on very short input. -/
def undClassifier : Classifier := fun _ => .ok [("und", 1)]

/-- A classifier stub that throws. -/
def errClassifier : Classifier := fun _ => .err "franc exploded"

/-- A fresh pipeline over the permissive configuration. -/
def P1 : DataPipeline := DataPipeline.mkNew lenientOptions

/-- A small document that `P1` accepts. -/
def doc1 : Document := { text := some "hello there world again" }

/-- A second document sharing a 3-word window with `doc1`. -/
def doc2 : Document := { text := some "there world again and more" }

/-- A pipeline whose threshold (1/2) is met exactly by a document with one
of its two windows already seen. -/
def boundaryPipeline : DataPipeline :=
  { options := { lenientOptions with ngramOverlapThreshold := mkRat 1 2 }
    seenNGrams := {"a b c"}
    processedDocuments := 0 }

/-! ### Helper lemmas -/

lemma mkRat_natCast_eq_div (a b : ℕ) : mkRat (a : Int) b = (a : ℚ) / (b : ℚ) := by
  rw [Rat.mkRat_eq_divInt, Rat.divInt_eq_div]
  norm_num

lemma mkRat_natCast_nonneg (a b : ℕ) : 0 ≤ mkRat (a : Int) b :=
  Rat.mkRat_nonneg (Int.ofNat_nonneg a) b

lemma foldl_insert_eq_union (l : List String) (s : Finset String) :
    l.foldl (fun t x => insert x t) s = s ∪ l.toFinset := by
  induction l generalizing s with
  | nil => simp
  | cons a l ih => simp [List.foldl_cons, ih, Finset.union_insert, Finset.insert_union]

lemma addNGrams_eq (p : DataPipeline) (text : String) :
    addNGrams p text =
      { p with seenNGrams := p.seenNGrams ∪ (generateNGrams p text none).toFinset } := by
  simp [addNGrams, foldl_insert_eq_union]

/-- Case analysis of `processText`: the returned state is either untouched
(with `passed = false`), or the document was accepted, in which case the
dedup stage passed and the state gained exactly the document's n-grams and
one document count. -/
lemma processText_state_cases (cl : Classifier) (p : DataPipeline) (text : String) :
    ((processText cl p text).1.passed = false ∧ (processText cl p text).2 = p) ∨
    ((processText cl p text).1.passed = true ∧
     (checkDuplicates p text).passed = true ∧
     (processText cl p text).2 =
       { options := p.options
         seenNGrams := p.seenNGrams ∪ (generateNGrams p text none).toFinset
         processedDocuments := p.processedDocuments + 1 }) := by
  unfold processText
  dsimp only
  split
  · exact Or.inl ⟨rfl, rfl⟩
  · split
    · exact Or.inl ⟨rfl, rfl⟩
    · split
      · exact Or.inl ⟨rfl, rfl⟩
      · split
        · exact Or.inl ⟨rfl, rfl⟩
        · rename_i hdup
          refine Or.inr ⟨rfl, ?_, ?_⟩
          · simpa using hdup
          · simp [addNGrams_eq]

lemma processText_rejected_state (cl : Classifier) (p : DataPipeline) (text : String)
    (h : (processText cl p text).1.passed = false) :
    (processText cl p text).2 = p := by
  rcases processText_state_cases cl p text with ⟨_, h2⟩ | ⟨h1, _, _⟩
  · exact h2
  · rw [h1] at h
    exact absurd h (by simp)

lemma processText_accepted_state (cl : Classifier) (p : DataPipeline) (text : String)
    (h : (processText cl p text).1.passed = true) :
    (checkDuplicates p text).passed = true ∧
    (processText cl p text).2 =
      { options := p.options
        seenNGrams := p.seenNGrams ∪ (generateNGrams p text none).toFinset
        processedDocuments := p.processedDocuments + 1 } := by
  rcases processText_state_cases cl p text with ⟨h1, _⟩ | ⟨_, h2, h3⟩
  · rw [h1] at h
    exact absurd h (by simp)
  · exact ⟨h2, h3⟩

lemma processText_ngramDuplication (cl : Classifier) (p : DataPipeline) (text : String)
    (dr : DedupResult)
    (h : (processText cl p text).1.metrics.ngramDuplication = some dr) :
    dr = checkDuplicates p text := by
  unfold processText at h
  dsimp only at h
  split at h
  · simp [PipelineMetrics.ngramDuplication] at h
  · split at h
    · simp [PipelineMetrics.ngramDuplication] at h
    · split at h
      · simp [PipelineMetrics.ngramDuplication] at h
      · split at h
        · simp [PipelineMetrics.ngramDuplication] at h
          exact h.symm
        · simp [PipelineMetrics.ngramDuplication] at h
          exact h.symm

lemma generateNGrams_congr (p q : DataPipeline) (text : String) (n : Option Nat)
    (h : p.options = q.options) :
    generateNGrams p text n = generateNGrams q text n := by
  unfold generateNGrams
  rw [h]

lemma checkDuplicates_of_nil (p : DataPipeline) (text : String)
    (h : generateNGrams p text none = []) :
    checkDuplicates p text = { passed := true, overlapRatio := 0, reason := none } := by
  unfold checkDuplicates
  rw [h]
  rfl

lemma checkDuplicates_of_ne_nil (p : DataPipeline) (text : String)
    (h : generateNGrams p text none ≠ []) :
    checkDuplicates p text =
      { passed := decide (mkRat ((generateNGrams p text none).countP
            (fun g => decide (g ∈ p.seenNGrams))) (generateNGrams p text none).length <
            p.options.ngramOverlapThreshold)
        overlapRatio := mkRat ((generateNGrams p text none).countP
            (fun g => decide (g ∈ p.seenNGrams))) (generateNGrams p text none).length
        totalNGrams := some (generateNGrams p text none).length
        duplicateNGrams := some ((generateNGrams p text none).countP
            (fun g => decide (g ∈ p.seenNGrams)))
        reason := if !decide (mkRat ((generateNGrams p text none).countP
            (fun g => decide (g ∈ p.seenNGrams))) (generateNGrams p text none).length <
            p.options.ngramOverlapThreshold) then some "High n-gram overlap ratio"
          else none } := by
  unfold checkDuplicates
  have hlen : (generateNGrams p text none).length ≠ 0 := by
    intro h0
    exact h (List.length_eq_zero.mp h0)
  rw [if_neg hlen]
  rw [List.countP_eq_length_filter]

lemma processText_quality (cl : Classifier) (p : DataPipeline) (text : String)
    (ht : ¬text = "") (hl : (identifyLanguage p cl text).passed = true) :
    (processText cl p text).1.filters =
      (let q := applyQualityFilters p text (calculateMetrics text)
       if anyQualityFailed q then
         (Filters.withQuality { language := some false } q)
       else
         { Filters.withQuality { language := some false } q with
             duplicate := some (!(checkDuplicates p text).passed) }) ∧
    (anyQualityFailed (applyQualityFilters p text (calculateMetrics text)) = true ↔
      ((processText cl p text).1.passed = false ∧
       (processText cl p text).1.metrics.ngramDuplication = none)) := by
  unfold processText
  dsimp only
  rw [if_neg ht, hl]
  simp only [Bool.not_true, Bool.false_eq_true, if_false]
  constructor
  · split
    · rfl
    · split <;> rfl
  · split
    · rename_i hq
      simp [hq]
    · rename_i hq
      split <;> simp [hq]

lemma generateNGrams_some_of_ne_zero (p : DataPipeline) (text : String) (n : Nat)
    (hn : n ≠ 0) :
    generateNGrams p text (some n) =
      (if (splitWords (jsToLower text)).length < n then []
       else (List.range ((splitWords (jsToLower text)).length - n + 1)).map
         (fun i => joinSpace (((splitWords (jsToLower text)).drop i).take n))) := by
  unfold generateNGrams
  dsimp only
  rw [if_neg hn]

lemma generateNGrams_none_of_short (p : DataPipeline) (text : String)
    (h : (splitWords (jsToLower text)).length < p.options.ngramSize) :
    generateNGrams p text none = [] := by
  unfold generateNGrams
  dsimp only
  rw [if_pos h]

/-! ### Claim theorems -/

/-- Claim C3: for every text and every `n ≥ 1`, `generateNGrams(text, n)`
returns, in order, exactly `words.length - n + 1` windows when
`words.length ≥ n` (the count `words.length + 1 - n` below is the same
number in truncated ℕ-subtraction, and is 0 otherwise), where `words` is
the lowercased whitespace-split non-empty token list; the `i`-th window is
the `n` consecutive words starting at `i` joined by a single space; and the
seven-word example yields exactly its five 3-word windows. -/
theorem generateNGrams_window_spec (p : DataPipeline) (text : String) (n : Nat)
    (hn : 1 ≤ n) :
    (generateNGrams p text (some n)).length
        = (splitWords (jsToLower text)).length + 1 - n ∧
    (∀ i : Nat, i + n ≤ (splitWords (jsToLower text)).length →
      (generateNGrams p text (some n))[i]? =
        some (joinSpace (((splitWords (jsToLower text)).drop i).take n))) ∧
    ((splitWords (jsToLower text)).length < n → generateNGrams p text (some n) = []) ∧
    generateNGrams p "one two three four five six seven" (some 3) =
      ["one two three", "two three four", "three four five", "four five six",
       "five six seven"] := by
  have hn0 : n ≠ 0 := by omega
  refine ⟨?_, ?_, ?_, ?_⟩
  · rw [generateNGrams_some_of_ne_zero p text n hn0]
    split
    · rename_i hlt
      simp only [List.length_nil]
      omega
    · rename_i hge
      simp only [List.length_map, List.length_range]
      omega
  · intro i hi
    rw [generateNGrams_some_of_ne_zero p text n hn0]
    have hge : ¬ ((splitWords (jsToLower text)).length < n) := by omega
    rw [if_neg hge]
    have hi' : i < (splitWords (jsToLower text)).length - n + 1 := by omega
    simp [List.getElem?_map, List.getElem?_range, hi']
  · intro h
    rw [generateNGrams_some_of_ne_zero p text n hn0, if_pos h]
  · rw [generateNGrams_some_of_ne_zero p "one two three four five six seven" 3 (by decide)]
    decide

/-- Witness for C3 at the spec's own example input. -/
theorem generateNGrams_window_spec_witness :
    (generateNGrams P1 "one two three four five six seven" (some 3)).length =
      (splitWords (jsToLower "one two three four five six seven")).length + 1 - 3 :=
  (generateNGrams_window_spec P1 "one two three four five six seven" 3 (by decide)).1

/-- Claim C4: when at least one window is generated, `checkDuplicates`
reports `totalNGrams` = window count, `duplicateNGrams` = the number of
windows (with multiplicity) whose key is already in `seenNGrams`, and
`overlapRatio` their quotient; with zero windows the ratio is 0 and the
stage passes, so every document with fewer than `ngramSize` words passes
dedup. -/
theorem checkDuplicates_counts (p : DataPipeline) (text : String) :
    (generateNGrams p text none ≠ [] →
      (checkDuplicates p text).totalNGrams = some (generateNGrams p text none).length ∧
      (checkDuplicates p text).duplicateNGrams =
        some ((generateNGrams p text none).countP (fun g => decide (g ∈ p.seenNGrams))) ∧
      (checkDuplicates p text).overlapRatio =
        (((generateNGrams p text none).countP (fun g => decide (g ∈ p.seenNGrams)) : ℚ)) /
          ((generateNGrams p text none).length : ℚ)) ∧
    (generateNGrams p text none = [] →
      (checkDuplicates p text).overlapRatio = 0 ∧
      (checkDuplicates p text).passed = true) ∧
    ((splitWords (jsToLower text)).length < p.options.ngramSize →
      (checkDuplicates p text).passed = true) := by
  refine ⟨?_, ?_, ?_⟩
  · intro h
    rw [checkDuplicates_of_ne_nil p text h]
    exact ⟨rfl, rfl, mkRat_natCast_eq_div _ _⟩
  · intro h
    rw [checkDuplicates_of_nil p text h]
    exact ⟨rfl, rfl⟩
  · intro h
    rw [checkDuplicates_of_nil p text (generateNGrams_none_of_short p text h)]

/-- Witness for C4: a two-window document against the fresh state, and a
one-word document (fewer than `ngramSize` words) passing dedup. -/
theorem checkDuplicates_counts_witness :
    (checkDuplicates P1 "hello there world again").totalNGrams =
      some (generateNGrams P1 "hello there world again" none).length ∧
    (checkDuplicates P1 "hi").passed = true :=
  ⟨((checkDuplicates_counts P1 "hello there world again").1 (by decide)).1,
   ((checkDuplicates_counts P1 "hi").2.1 (by decide)).2⟩

/-- Counterexample to C5 as stated: with `ngramOverlapThreshold = 0` (a
value in the spec's allowed range [0,1]) a one-word document has
`overlapRatio` exactly equal to the threshold, yet the dedup stage passes
it (the zero-window early return never compares against the threshold). -/
theorem checkDuplicates_threshold_cex :
    (checkDuplicates (DataPipeline.mkNew { lenientOptions with ngramOverlapThreshold := 0 })
        "hi").overlapRatio =
      (DataPipeline.mkNew
        { lenientOptions with ngramOverlapThreshold := 0 }).options.ngramOverlapThreshold ∧
    (checkDuplicates (DataPipeline.mkNew { lenientOptions with ngramOverlapThreshold := 0 })
        "hi").passed = true := by
  decide

/-- Claim C5 (amended): for every document that generates at least one
n-gram window, the dedup stage passes iff `overlapRatio` is strictly below
`ngramOverlapThreshold`, and a ratio exactly equal to the threshold is
rejected; a zero-window document, however, always passes, even when its
ratio (0) equals a zero threshold. -/
theorem checkDuplicates_threshold_strict (p : DataPipeline) (text : String)
    (h : generateNGrams p text none ≠ []) :
    ((checkDuplicates p text).passed = true ↔
      (checkDuplicates p text).overlapRatio < p.options.ngramOverlapThreshold) ∧
    ((checkDuplicates p text).overlapRatio = p.options.ngramOverlapThreshold →
      (checkDuplicates p text).passed = false) := by
  rw [checkDuplicates_of_ne_nil p text h]
  constructor
  · simp
  · intro he
    dsimp only at he ⊢
    rw [he]
    simp

/-- Witness for C5 (amended): two windows, one already seen, ratio 1/2
equal to the configured threshold 1/2: rejected. -/
theorem checkDuplicates_threshold_strict_witness :
    (checkDuplicates boundaryPipeline "a b c d").passed = false :=
  (checkDuplicates_threshold_strict boundaryPipeline "a b c d" (by decide)).2 (by decide)

/-- Claim C8: a classifier exception is caught and converted into
`passed = false`, `detected = "error"`, `confidence = 0` with the message
in `reason`; `identifyLanguage` is total, so the exception never reaches
the caller. -/
theorem identifyLanguage_catches_errors (p : DataPipeline) (cl : Classifier)
    (text msg : String) (h : cl text = ClassifierResult.err msg) :
    identifyLanguage p cl text =
      { passed := false
        detected := "error"
        confidence := 0
        allDetections := none
        reason := some ("Language detection error: " ++ msg) } := by
  unfold identifyLanguage
  rw [h]

/-- Witness for C8 at a throwing classifier stub. -/
theorem identifyLanguage_catches_errors_witness :
    identifyLanguage P1 errClassifier "whatever text" =
      { passed := false
        detected := "error"
        confidence := 0
        allDetections := none
        reason := some ("Language detection error: " ++ "franc exploded") } :=
  identifyLanguage_catches_errors P1 errClassifier "whatever text" "franc exploded" rfl

/-- Claim C1: `processDocument` mutates the shared dedup state only on full
acceptance: a rejected result (empty text, language, quality or duplicate
failure) leaves the pipeline instance exactly as before, and acceptance
inserts every generated n-gram of the document's resolved text into
`seenNGrams` and increments `processedDocuments` by exactly one. -/
theorem processDocument_state_mutation (cl : Classifier) (p : DataPipeline) (doc : Document) :
    ((processDocument cl p doc).1.pipeline.passed = false →
      (processDocument cl p doc).2 = p) ∧
    ((processDocument cl p doc).1.pipeline.passed = true →
      (processDocument cl p doc).2.seenNGrams =
        p.seenNGrams ∪ (generateNGrams p (resolveText doc) none).toFinset ∧
      (∀ g ∈ generateNGrams p (resolveText doc) none,
        g ∈ (processDocument cl p doc).2.seenNGrams) ∧
      (processDocument cl p doc).2.processedDocuments = p.processedDocuments + 1) := by
  constructor
  · intro h
    exact processText_rejected_state cl p (resolveText doc) h
  · intro h
    obtain ⟨-, h2⟩ := processText_accepted_state cl p (resolveText doc) h
    have h2' : (processDocument cl p doc).2 =
        { options := p.options
          seenNGrams := p.seenNGrams ∪ (generateNGrams p (resolveText doc) none).toFinset
          processedDocuments := p.processedDocuments + 1 } := h2
    rw [h2']
    refine ⟨rfl, ?_, rfl⟩
    intro g hg
    exact Finset.mem_union_right _ (List.mem_toFinset.mpr hg)

/-- Witness for C1: an accepted document bumps the counter; a document the
stub classifier cannot identify leaves the state untouched. -/
theorem processDocument_state_mutation_witness :
    (processDocument engClassifier P1 doc1).1.pipeline.passed = true ∧
    (processDocument engClassifier P1 doc1).2.processedDocuments =
      P1.processedDocuments + 1 ∧
    (processDocument undClassifier P1 doc1).1.pipeline.passed = false ∧
    (processDocument undClassifier P1 doc1).2 = P1 :=
  ⟨by decide,
   ((processDocument_state_mutation engClassifier P1 doc1).2 (by decide)).2.2,
   by decide,
   (processDocument_state_mutation undClassifier P1 doc1).1 (by decide)⟩

/-- Claim C2: if a first document is accepted, every n-gram window it
shares verbatim with a later document is in the committed state, the
second document's dedup metric (when computed) is exactly the dedup check
against that state, and its `duplicateNGrams` dominates the count of the
windows shared with the first document. -/
theorem dedup_monotonicity (cl : Classifier) (p : DataPipeline) (d1 d2 : Document)
    (h : (processDocument cl p d1).1.pipeline.passed = true) :
    (∀ g ∈ generateNGrams p (resolveText d2) none,
      g ∈ generateNGrams p (resolveText d1) none →
      g ∈ (processDocument cl p d1).2.seenNGrams) ∧
    (∀ dr : DedupResult,
      (processDocument cl (processDocument cl p d1).2 d2).1.pipeline.metrics.ngramDuplication
          = some dr →
      dr = checkDuplicates (processDocument cl p d1).2 (resolveText d2)) ∧
    (generateNGrams p (resolveText d2) none ≠ [] →
      (checkDuplicates (processDocument cl p d1).2 (resolveText d2)).duplicateNGrams =
        some ((generateNGrams p (resolveText d2) none).countP
          (fun g => decide (g ∈ (processDocument cl p d1).2.seenNGrams))) ∧
      (generateNGrams p (resolveText d2) none).countP
          (fun g => decide (g ∈ generateNGrams p (resolveText d1) none)) ≤
        (generateNGrams p (resolveText d2) none).countP
          (fun g => decide (g ∈ (processDocument cl p d1).2.seenNGrams))) := by
  obtain ⟨-, h2⟩ := processText_accepted_state cl p (resolveText d1) h
  have hopts : p.options = (processDocument cl p d1).2.options := by
    show p.options = (processText cl p (resolveText d1)).2.options
    rw [h2]
  have hmem : ∀ g ∈ generateNGrams p (resolveText d2) none,
      g ∈ generateNGrams p (resolveText d1) none →
      g ∈ (processDocument cl p d1).2.seenNGrams := by
    intro g _ hg1
    show g ∈ (processText cl p (resolveText d1)).2.seenNGrams
    rw [h2]
    exact Finset.mem_union_right _ (List.mem_toFinset.mpr hg1)
  refine ⟨hmem, ?_, ?_⟩
  · intro dr hdr
    exact processText_ngramDuplication cl (processDocument cl p d1).2 (resolveText d2) dr hdr
  · intro hne
    have hne' : generateNGrams (processDocument cl p d1).2 (resolveText d2) none ≠ [] := by
      rw [← generateNGrams_congr p (processDocument cl p d1).2 (resolveText d2) none hopts]
      exact hne
    rw [checkDuplicates_of_ne_nil (processDocument cl p d1).2 (resolveText d2) hne']
    rw [← generateNGrams_congr p (processDocument cl p d1).2 (resolveText d2) none hopts]
    constructor
    · rfl
    · refine List.countP_mono_left ?_
      intro g hg hdec
      have := hmem g hg (of_decide_eq_true hdec)
      exact decide_eq_true this

/-- Witness for C2: after `doc1` is accepted, the window it shares with
`doc2` is counted toward `doc2`'s duplicates. -/
theorem dedup_monotonicity_witness :
    (checkDuplicates (processDocument engClassifier P1 doc1).2 (resolveText doc2)).duplicateNGrams =
      some ((generateNGrams P1 (resolveText doc2) none).countP
        (fun g => decide (g ∈ (processDocument engClassifier P1 doc1).2.seenNGrams))) :=
  (((dedup_monotonicity engClassifier P1 doc1 doc2 (by decide)).2.2) (by decide)).1

/-- Counterexample to C6 as stated: a document whose text is the single
space `" "` is whitespace-only but non-empty, hence truthy in JS; the
empty-text short-circuit is skipped (`emptyText` is never set) and the
language metric is computed. -/
theorem emptyText_whitespace_cex :
    (processDocument undClassifier P1 { text := some " " }).1.pipeline.filters.emptyText =
      none ∧
    (processDocument undClassifier P1 { text := some " " }).1.pipeline.metrics.language ≠
      none := by
  decide

/-- Claim C6 (amended): for every document whose resolved text is the empty
string (no non-empty `filteredText` and no non-empty `text`), the result is
rejected with `emptyText = true` as the only filter flag, no metrics
computed, and the state untouched; whitespace-only non-empty text is not
short-circuited and instead reaches the language stage. -/
theorem processDocument_emptyText (cl : Classifier) (p : DataPipeline) (doc : Document)
    (h : resolveText doc = "") :
    (processDocument cl p doc).1.pipeline =
      { passed := false
        filters := { emptyText := some true }
        metrics := {} } ∧
    (processDocument cl p doc).2 = p := by
  constructor
  · show (processText cl p (resolveText doc)).1 = _
    rw [h]
    rfl
  · show (processText cl p (resolveText doc)).2 = p
    rw [h]
    rfl

/-- Witness for C6 (amended), at a document with an empty `text` field. -/
theorem processDocument_emptyText_witness :
    (processDocument undClassifier P1 { text := some "" }).1.pipeline =
      { passed := false
        filters := { emptyText := some true }
        metrics := {} } :=
  (processDocument_emptyText undClassifier P1 { text := some "" } (by decide)).1

/-- Claim C9: `reset()` empties `seenNGrams` and zeroes
`processedDocuments` without touching the configuration, so a document
identical to one accepted beforehand is checked against empty state and
gets `overlapRatio = 0`, passing dedup again. -/
theorem reset_clears_state (cl : Classifier) (p : DataPipeline) (doc : Document)
    (h : (processDocument cl p doc).1.pipeline.passed = true) :
    (reset (processDocument cl p doc).2).seenNGrams = ∅ ∧
    (reset (processDocument cl p doc).2).processedDocuments = 0 ∧
    (reset (processDocument cl p doc).2).options = p.options ∧
    (checkDuplicates (reset (processDocument cl p doc).2) (resolveText doc)).overlapRatio
      = 0 ∧
    (checkDuplicates (reset (processDocument cl p doc).2) (resolveText doc)).passed
      = true := by
  obtain ⟨hdup, h2⟩ := processText_accepted_state cl p (resolveText doc) h
  have hopts : p.options = (reset (processDocument cl p doc).2).options := by
    show p.options = (reset (processText cl p (resolveText doc)).2).options
    rw [h2]
    rfl
  have hseen : (reset (processDocument cl p doc).2).seenNGrams = ∅ := rfl
  have hng : generateNGrams (reset (processDocument cl p doc).2) (resolveText doc) none =
      generateNGrams p (resolveText doc) none :=
    generateNGrams_congr _ p (resolveText doc) none hopts.symm
  refine ⟨hseen, rfl, hopts.symm, ?_⟩
  rcases eq_or_ne (generateNGrams p (resolveText doc) none) [] with hnil | hne
  · have : generateNGrams (reset (processDocument cl p doc).2) (resolveText doc) none = [] := by
      rw [hng, hnil]
    rw [checkDuplicates_of_nil _ _ this]
    exact ⟨rfl, rfl⟩
  · have hne' : generateNGrams (reset (processDocument cl p doc).2) (resolveText doc) none ≠ [] := by
      rw [hng]
      exact hne
    rw [checkDuplicates_of_ne_nil _ _ hne']
    have hcount : ((generateNGrams (reset (processDocument cl p doc).2) (resolveText doc) none).countP
        (fun g => decide (g ∈ (reset (processDocument cl p doc).2).seenNGrams))) = 0 := by
      rw [hseen]
      simp
    have hzero : mkRat (((generateNGrams (reset (processDocument cl p doc).2) (resolveText doc) none).countP
        (fun g => decide (g ∈ (reset (processDocument cl p doc).2).seenNGrams)) : Int))
        (generateNGrams (reset (processDocument cl p doc).2) (resolveText doc) none).length = 0 := by
      rw [hcount]
      simp
    have hthr : 0 < p.options.ngramOverlapThreshold := by
      rw [checkDuplicates_of_ne_nil p (resolveText doc) hne] at hdup
      dsimp only at hdup
      have hlt := of_decide_eq_true hdup
      calc (0 : ℚ) ≤ _ := mkRat_natCast_nonneg _ _
        _ < p.options.ngramOverlapThreshold := hlt
  -- the zero ratio is strictly below the (positive) threshold
    constructor
    · exact hzero
    · dsimp only
      rw [hzero, ← hopts]
      exact decide_eq_true hthr

/-- Witness for C9: `doc1`, accepted by `P1`, passes dedup again after a
reset. -/
theorem reset_clears_state_witness :
    (checkDuplicates (reset (processDocument engClassifier P1 doc1).2) (resolveText doc1)).passed
      = true :=
  (reset_clears_state engClassifier P1 doc1 (by decide)).2.2.2.2

/-- Claim C7: `applyQualityFilters` is a total function returning the
complete 12-flag map, each flag its own threshold comparison with no
short-circuiting in the group; when the quality stage runs, all 12 flags
are populated in the result, and the document fails the quality stage
(rejected with the dedup stage never reached) iff at least one flag is
true. -/
theorem quality_filters_total (cl : Classifier) (p : DataPipeline) (doc : Document)
    (ht : resolveText doc ≠ "")
    (hl : (identifyLanguage p cl (resolveText doc)).passed = true) :
    (∀ (t : String) (m : Metrics), applyQualityFilters p t m =
      { tooShort := decide ((m.textLength : ℚ) < p.options.minTextLength)
        tooLong := decide (p.options.maxTextLength < (m.textLength : ℚ))
        tooFewWords := decide ((m.wordCount : ℚ) < p.options.minWordCount)
        wordsTooShort := decide (m.avgWordLength < p.options.minAvgWordLength)
        wordsTooLong := decide (p.options.maxAvgWordLength < m.avgWordLength)
        insufficientPunctuation := decide (m.linesEndingWithPunctuationRatio <
          p.options.minLinesEndingWithPunctuation)
        tooManyBullets := decide (p.options.maxBulletPointRatio < m.bulletPointRatio)
        tooManyEllipsis := decide (p.options.maxEllipsisLineRatio < m.ellipsisLineRatio)
        tooManySymbols := decide (p.options.maxSymbolToWordRatio < m.symbolToWordRatio)
        tooManyDigits := decide (p.options.maxDigitRatio < m.digitRatio)
        tooManyUppercase := decide (p.options.maxUppercaseRatio < m.uppercaseRatio)
        insufficientVariety :=
          decide (m.uniqueWordsRatio < p.options.minUniqueWordsRatio) }) ∧
    ((processDocument cl p doc).1.pipeline.filters.tooShort =
        some (applyQualityFilters p (resolveText doc)
          (calculateMetrics (resolveText doc))).tooShort ∧
     (processDocument cl p doc).1.pipeline.filters.tooLong =
        some (applyQualityFilters p (resolveText doc)
          (calculateMetrics (resolveText doc))).tooLong ∧
     (processDocument cl p doc).1.pipeline.filters.tooFewWords =
        some (applyQualityFilters p (resolveText doc)
          (calculateMetrics (resolveText doc))).tooFewWords ∧
     (processDocument cl p doc).1.pipeline.filters.wordsTooShort =
        some (applyQualityFilters p (resolveText doc)
          (calculateMetrics (resolveText doc))).wordsTooShort ∧
     (processDocument cl p doc).1.pipeline.filters.wordsTooLong =
        some (applyQualityFilters p (resolveText doc)
          (calculateMetrics (resolveText doc))).wordsTooLong ∧
     (processDocument cl p doc).1.pipeline.filters.insufficientPunctuation =
        some (applyQualityFilters p (resolveText doc)
          (calculateMetrics (resolveText doc))).insufficientPunctuation ∧
     (processDocument cl p doc).1.pipeline.filters.tooManyBullets =
        some (applyQualityFilters p (resolveText doc)
          (calculateMetrics (resolveText doc))).tooManyBullets ∧
     (processDocument cl p doc).1.pipeline.filters.tooManyEllipsis =
        some (applyQualityFilters p (resolveText doc)
          (calculateMetrics (resolveText doc))).tooManyEllipsis ∧
     (processDocument cl p doc).1.pipeline.filters.tooManySymbols =
        some (applyQualityFilters p (resolveText doc)
          (calculateMetrics (resolveText doc))).tooManySymbols ∧
     (processDocument cl p doc).1.pipeline.filters.tooManyDigits =
        some (applyQualityFilters p (resolveText doc)
          (calculateMetrics (resolveText doc))).tooManyDigits ∧
     (processDocument cl p doc).1.pipeline.filters.tooManyUppercase =
        some (applyQualityFilters p (resolveText doc)
          (calculateMetrics (resolveText doc))).tooManyUppercase ∧
     (processDocument cl p doc).1.pipeline.filters.insufficientVariety =
        some (applyQualityFilters p (resolveText doc)
          (calculateMetrics (resolveText doc))).insufficientVariety) ∧
    (anyQualityFailed (applyQualityFilters p (resolveText doc)
        (calculateMetrics (resolveText doc))) = true ↔
      ((processDocument cl p doc).1.pipeline.passed = false ∧
       (processDocument cl p doc).1.pipeline.metrics.ngramDuplication = none)) := by
  obtain ⟨hf, hiff⟩ := processText_quality cl p (resolveText doc) ht hl
  refine ⟨fun t m => rfl, ?_, hiff⟩
  have hfilters : (processDocument cl p doc).1.pipeline.filters =
      (let q := applyQualityFilters p (resolveText doc) (calculateMetrics (resolveText doc))
       if anyQualityFailed q then
         Filters.withQuality { language := some false } q
       else
         { Filters.withQuality { language := some false } q with
             duplicate := some (!(checkDuplicates p (resolveText doc)).passed) }) := hf
  rw [hfilters]
  dsimp only
  split <;>
    exact ⟨rfl, rfl, rfl, rfl, rfl, rfl, rfl, rfl, rfl, rfl, rfl, rfl⟩

/-- Witness for C7 at `doc1` under the permissive configuration: all 12
flags are populated. -/
theorem quality_filters_total_witness :
    (processDocument engClassifier P1 doc1).1.pipeline.filters.tooShort =
      some (applyQualityFilters P1 (resolveText doc1)
        (calculateMetrics (resolveText doc1))).tooShort :=
  (quality_filters_total engClassifier P1 doc1 (by decide) (by decide)).2.1.1

/-- Claim C10: the document's text is resolved with fixed precedence —
non-empty `filteredText` first, else non-empty `text`, else the empty
string — and when `filteredText` is non-empty, every stage operates on it:
the verdict and the updated state are those of the staged checks run on
`filteredText`, whatever the `text` field holds. -/
theorem resolveText_precedence (cl : Classifier) (p : DataPipeline) :
    (∀ (doc : Document) (s : String), doc.filteredText = some s → s ≠ "" →
      resolveText doc = s) ∧
    (∀ (doc : Document) (s : String),
      (doc.filteredText = none ∨ doc.filteredText = some "") →
      doc.text = some s → s ≠ "" → resolveText doc = s) ∧
    (∀ doc : Document,
      (doc.filteredText = none ∨ doc.filteredText = some "") →
      (doc.text = none ∨ doc.text = some "") → resolveText doc = "") ∧
    (∀ (title url : Option String) (ft t : String), ft ≠ "" →
      (processDocument cl p
          { title := title, url := url, filteredText := some ft,
            text := some t }).1.pipeline = (processText cl p ft).1 ∧
      (processDocument cl p
          { title := title, url := url, filteredText := some ft,
            text := some t }).2 = (processText cl p ft).2) := by
  refine ⟨?_, ?_, ?_, ?_⟩
  · intro doc s hf hs
    simp [resolveText, strTruthy, hf, hs]
  · intro doc s hf htext hs
    rcases hf with hf | hf <;> simp [resolveText, strTruthy, hf, htext, hs]
  · intro doc hf htext
    rcases hf with hf | hf <;> rcases htext with htext | htext <;>
      simp [resolveText, strTruthy, hf, htext]
  · intro title url ft t hft
    have hr : resolveText
        { title := title, url := url, filteredText := some ft, text := some t } = ft := by
      simp [resolveText, strTruthy, hft]
    constructor
    · show (processText cl p (resolveText _)).1 = _
      rw [hr]
    · show (processText cl p (resolveText _)).2 = _
      rw [hr]

/-- Witness for C10: a non-empty `filteredText` wins over a non-empty
`text`, and the pipeline verdict ignores the `text` field. -/
theorem resolveText_precedence_witness :
    resolveText { filteredText := some "kept words", text := some "ignored words" } =
      "kept words" ∧
    (processDocument engClassifier P1
        { filteredText := some "kept words", text := some "ignored words" }).1.pipeline =
      (processText engClassifier P1 "kept words").1 :=
  ⟨(resolveText_precedence engClassifier P1).1 _ "kept words" rfl (by decide),
   ((resolveText_precedence engClassifier P1).2.2.2 none none "kept words" "ignored words"
     (by decide)).1⟩

end DataPipelineModel
